import Mathlib

/-!
Verification of the `ScrollableTabBar` component
(`src/client/components/ScrollableTabBar.tsx`).

The component's arithmetic runs on JavaScript numbers.  We embed the
arithmetic over exact rationals extended with the IEEE special values
`+Infinity`, `-Infinity` and `NaN` (type `JSNum` below), because the
layout calculator divides by `min(routeCount, 5)`, which is zero for an
empty route list; JavaScript then yields `Infinity` and `NaN`, and the
overflow comparison `NaN > w` yields `false`.  Rounding of finite values
is not modelled: every quantity in scope is an exact rational.

The component is pure presentation glue: route list and focused index
flow in from the external router, the layout calculator derives tab
geometry, the animation driver retargets the indicator spring and the
per-icon animated values, the scroll synchronizer issues at most one
scroll command, and press handlers emit events back to the router.
Each of those steps is embedded below as a pure function of the
navigation state and the viewport width (the module constant
`SCREEN_WIDTH` is a parameter `w` throughout).
-/

set_option autoImplicit false

namespace TabBar

/-- A JavaScript number, restricted to exact rationals plus the IEEE
special values that the component's arithmetic can produce. -/
inductive JSNum where
  | num (q : ℚ)
  | posInf
  | negInf
  | nan
deriving DecidableEq, Repr

namespace JSNum

/-- JavaScript unary minus. -/
def neg : JSNum → JSNum
  | num a => num (-a)
  | posInf => negInf
  | negInf => posInf
  | nan => nan

/-- JavaScript `+` on numbers: `NaN` propagates, `Infinity + (-Infinity) = NaN`. -/
def add : JSNum → JSNum → JSNum
  | nan, _ => nan
  | _, nan => nan
  | num a, num b => num (a + b)
  | posInf, negInf => nan
  | negInf, posInf => nan
  | posInf, _ => posInf
  | _, posInf => posInf
  | negInf, _ => negInf
  | _, negInf => negInf

/-- JavaScript `-` on numbers. -/
def sub (x y : JSNum) : JSNum := add x (neg y)

/-- JavaScript `*` on numbers: `NaN` propagates, `0 * ±Infinity = NaN`,
sign rules otherwise. -/
def mul : JSNum → JSNum → JSNum
  | nan, _ => nan
  | _, nan => nan
  | num a, num b => num (a * b)
  | num a, posInf => if 0 < a then posInf else if a < 0 then negInf else nan
  | posInf, num b => if 0 < b then posInf else if b < 0 then negInf else nan
  | num a, negInf => if 0 < a then negInf else if a < 0 then posInf else nan
  | negInf, num b => if 0 < b then negInf else if b < 0 then posInf else nan
  | posInf, posInf => posInf
  | posInf, negInf => negInf
  | negInf, posInf => negInf
  | negInf, negInf => posInf

/-- JavaScript `/` on numbers: division by zero yields a signed infinity
(`0 / 0 = NaN`), a finite value divided by an infinity yields `0`. -/
def div : JSNum → JSNum → JSNum
  | nan, _ => nan
  | _, nan => nan
  | num a, num b =>
      if b = 0 then (if 0 < a then posInf else if a < 0 then negInf else nan)
      else num (a / b)
  | num _, posInf => num 0
  | num _, negInf => num 0
  | posInf, num b => if 0 ≤ b then posInf else negInf
  | negInf, num b => if 0 ≤ b then negInf else posInf
  | posInf, posInf => nan
  | posInf, negInf => nan
  | negInf, posInf => nan
  | negInf, negInf => nan

/-- JavaScript `>` on numbers: any comparison with `NaN` is `false`. -/
def gtb : JSNum → JSNum → Bool
  | nan, _ => false
  | _, nan => false
  | num a, num b => decide (b < a)
  | num _, posInf => false
  | num _, negInf => true
  | posInf, num _ => true
  | posInf, posInf => false
  | posInf, negInf => true
  | negInf, _ => false

/-- JavaScript `Math.max`: `NaN` if either argument is `NaN`. -/
def maxJ : JSNum → JSNum → JSNum
  | nan, _ => nan
  | _, nan => nan
  | num a, num b => num (max a b)
  | posInf, _ => posInf
  | _, posInf => posInf
  | negInf, x => x
  | x, negInf => x

/-- JavaScript `Math.min`: `NaN` if either argument is `NaN`. -/
def minJ : JSNum → JSNum → JSNum
  | nan, _ => nan
  | _, nan => nan
  | num a, num b => num (min a b)
  | negInf, _ => negInf
  | _, negInf => negInf
  | posInf, x => x
  | x, posInf => x

end JSNum

/-- A route supplied by the external router: a stable `key` and a `name`. -/
structure Route where
  key : String
  name : String
deriving DecidableEq, Repr

/-- The external navigation state: ordered route list plus focused index. -/
structure NavState where
  routes : List Route
  index : ℕ
deriving DecidableEq, Repr

/-- Per-route display options from `descriptors[route.key].options`. -/
structure RouteOptions where
  tabBarLabel : Option String
  title : Option String
deriving DecidableEq, Repr

/-- JavaScript `Array.prototype.findIndex`: index of the first match,
`-1` when there is none. -/
def jsFindIndex (p : Route → Bool) (l : List Route) : Int :=
  match l.findIdx? p with
  | some i => (i : Int)
  | none => -1

/-- Result record of the `tabCalculations` memo. -/
structure TabCalculations where
  tabWidth : JSNum
  totalWidth : JSNum
  needsScroll : Bool
  activeIndex : ℕ
  cameraIndex : Int
  routesCount : ℕ
deriving DecidableEq, Repr

/-- The `tabCalculations` memo (source lines 84–104), parametrised by the
viewport width `w` (the module constant `SCREEN_WIDTH`). -/
def tabCalculations (w : ℚ) (st : NavState) : TabCalculations :=
  let routesCount := st.routes.length
  let visibleTabs : ℕ := min routesCount 5
  let tabWidth := JSNum.div (.num w) (.num (visibleTabs : ℚ))
  let totalWidth := JSNum.mul (.num (routesCount : ℚ)) tabWidth
  let needsScroll := JSNum.gtb totalWidth (.num w)
  { tabWidth := tabWidth
    totalWidth := totalWidth
    needsScroll := needsScroll
    activeIndex := st.index
    cameraIndex := jsFindIndex (fun r => r.name = "camera") st.routes
    routesCount := routesCount }

/-- Width of the active-tab indicator, from the `activeIndicator` style
(source line 389: `width: 40`). -/
def INDICATOR_WIDTH : ℚ := 40

/-- A spring-animation retarget command (`Animated.spring(...).start()`). -/
structure SpringCmd where
  toValue : JSNum
  tension : ℚ
  friction : ℚ
deriving DecidableEq, Repr

/-- The indicator retarget issued by `animateToActiveTab`
(source lines 110–116): `toValue = activeIndex * tabWidth + tabWidth / 2 - 20`,
spring tension 300, friction 25. -/
def indicatorSpring (w : ℚ) (st : NavState) : SpringCmd :=
  let c := tabCalculations w st
  { toValue := JSNum.sub
      (JSNum.add (JSNum.mul (.num (c.activeIndex : ℚ)) c.tabWidth)
        (JSNum.div c.tabWidth (.num 2)))
      (.num 20)
    tension := 300
    friction := 25 }

/-- A programmatic scroll command (`scrollViewRef.current.scrollTo`). -/
structure ScrollCmd where
  x : JSNum
  animated : Bool
deriving DecidableEq, Repr

/-- The clamped left-to-right scroll offset of `animateToActiveTab`
(source lines 148–154): `Math.max(0, Math.min(activeIndex * tabWidth
- w / 2 + tabWidth / 2, totalWidth - w))`. -/
def scrollOffset (w : ℚ) (st : NavState) : JSNum :=
  let c := tabCalculations w st
  JSNum.maxJ (.num 0)
    (JSNum.minJ
      (JSNum.add
        (JSNum.sub (JSNum.mul (.num (c.activeIndex : ℚ)) c.tabWidth)
          (JSNum.div (.num w) (.num 2)))
        (JSNum.div c.tabWidth (.num 2)))
      (JSNum.sub c.totalWidth (.num w)))

/-- The auto-scroll step of `animateToActiveTab` (source lines 146–160):
guarded by `needsScroll` and an attached scroll ref; the issued `x` is the
clamped offset, mirrored to `totalWidth - w - offset` in RTL mode. -/
def scrollCommand (w : ℚ) (st : NavState) (isRTL : Bool) (hasScrollRef : Bool) :
    Option ScrollCmd :=
  let c := tabCalculations w st
  if c.needsScroll && hasScrollRef then
    some { x := if isRTL
                then JSNum.sub (JSNum.sub c.totalWidth (.num w)) (scrollOffset w st)
                else scrollOffset w st
           animated := true }
  else none

/-- The icons that appear in the component's fixed `iconMap` table. -/
inductive Icon where
  | Home
  | History
  | Camera
  | TrendingUp
  | User
  | Calendar
  | Watch
  | UtensilsCrossed
  | Bot
  | Scan
  | ClipboardList
deriving DecidableEq, Repr

/-- The fixed name-to-icon table (source lines 43–55). -/
def iconMap : String → Option Icon
  | "index" => some .Home
  | "history" => some .History
  | "camera" => some .Camera
  | "statistics" => some .TrendingUp
  | "calendar" => some .Calendar
  | "devices" => some .Watch
  | "recommended-menus" => some .UtensilsCrossed
  | "ai-chat" => some .Bot
  | "food-scanner" => some .Scan
  | "questionnaire" => some .ClipboardList
  | "profile" => some .User
  | _ => none

/-- Icon resolution at a tab (source line 261):
`iconMap[route.name] || Home`. -/
def resolveIcon (name : String) : Icon :=
  match iconMap name with
  | some icon => icon
  | none => Icon.Home

/-- JavaScript `a || b` on a possibly-missing string: `undefined` and the
empty string are falsy. -/
def jsStrOr (a : Option String) (b : String) : String :=
  match a with
  | some s => if s = "" then b else s
  | none => b

/-- Label resolution at a tab (source line 259):
`options.tabBarLabel || options.title || route.name`. -/
def labelOf (opts : RouteOptions) (name : String) : String :=
  jsStrOr opts.tabBarLabel (jsStrOr opts.title name)

/-- What the scrollable strip renders for one route: the camera route
yields an empty spacer, every other route a touchable tab. -/
inductive RenderedTab where
  | spacer (key : String) (width : JSNum)
  | tab (key : String) (label : String) (icon : Icon) (focused : Bool)
      (width : JSNum)
deriving DecidableEq, Repr

/-- The tab strip render pass (source lines 257–343): one rendered item
per route, in order; the camera route becomes a spacer of the computed
tab width. -/
def renderTabs (w : ℚ) (st : NavState) (descriptors : String → RouteOptions) :
    List RenderedTab :=
  let c := tabCalculations w st
  st.routes.enum.map (fun p =>
    let index := p.1
    let route := p.2
    if route.name = "camera" then
      RenderedTab.spacer route.key c.tabWidth
    else
      RenderedTab.tab route.key (labelOf (descriptors route.key) route.name)
        (resolveIcon route.name) (decide (st.index = index)) c.tabWidth)

/-- An effect emitted to the external router. -/
inductive NavEffect where
  | emit (type : String) (target : String) (canPreventDefault : Bool)
  | navigate (name : String)
deriving DecidableEq, Repr

/-- The press handler of an ordinary tab (source lines 273–283):
emit a cancelable `tabPress` keyed by the route key, then navigate iff
the tab is not focused and no listener prevented the default.
`prevented` is the `defaultPrevented` flag of the emitted event as
returned by the external router's listeners. -/
def onPressTab (isFocused : Bool) (route : Route) (prevented : Bool) :
    List NavEffect :=
  [NavEffect.emit "tabPress" route.key true]
    ++ (if !isFocused && !prevented then [NavEffect.navigate route.name] else [])

/-- The long-press handler of an ordinary tab (source lines 285–290):
emit a non-cancelable `tabLongPress` only. -/
def onLongPressTab (route : Route) : List NavEffect :=
  [NavEffect.emit "tabLongPress" route.key false]

/-- Lookup of the camera route (source lines 169–172). -/
def findCameraRoute (st : NavState) : Option Route :=
  st.routes.find? (fun r => r.name = "camera")

/-- The press handler of the floating camera button (source lines
178–188): same contract as an ordinary tab, with focus decided by
comparing the current index with the camera index. -/
def onPressFloatingCamera (w : ℚ) (st : NavState) (cameraRoute : Route)
    (prevented : Bool) : List NavEffect :=
  let c := tabCalculations w st
  let isFocused : Bool := decide ((st.index : Int) = c.cameraIndex)
  [NavEffect.emit "tabPress" cameraRoute.key true]
    ++ (if !isFocused && !prevented then [NavEffect.navigate cameraRoute.name]
        else [])

/-- The navigation requests contained in an effect list, in order. -/
def navigations : List NavEffect → List String
  | [] => []
  | NavEffect.navigate n :: rest => n :: navigations rest
  | NavEffect.emit _ _ _ :: rest => navigations rest

/-- The interaction handlers attached to a touchable region:
its press behaviour and, when registered, its long-press behaviour. -/
structure TouchableSpec where
  press : Bool → List NavEffect
  longPress : Option (List NavEffect)

/-- The touchable of the floating camera button (source lines 192–214):
only `onPress` is registered — no long-press handler. -/
def floatingCameraButton (w : ℚ) (st : NavState) (cameraRoute : Route) :
    TouchableSpec :=
  { press := fun prevented => onPressFloatingCamera w st cameraRoute prevented
    longPress := none }

/-- The touchable of an ordinary tab (source lines 293–305): both
`onPress` and `onLongPress` are registered. -/
def ordinaryTabButton (isFocused : Bool) (route : Route) : TouchableSpec :=
  { press := fun prevented => onPressTab isFocused route prevented
    longPress := some (onLongPressTab route) }

/-- The effects produced by a long press on a touchable: none when no
handler is registered. -/
def firedLongPress (b : TouchableSpec) : List NavEffect :=
  match b.longPress with
  | some effects => effects
  | none => []

/-- One per-route animated state (source lines 75–81), created once at
mount: `scale = 1`, `translateY = 0`, `opacity = 0.7`. -/
structure IconAnim where
  scale : ℚ
  translateY : ℚ
  opacity : ℚ
deriving DecidableEq, Repr

/-- The `iconAnimations` ref contents: one `IconAnim` per route in the
navigation state at mount time, never resized afterwards. -/
def iconAnimationsInit (routes : List Route) : List IconAnim :=
  routes.map (fun _ => { scale := 1, translateY := 0, opacity := 0.7 })

/-- Descriptor table with no explicit labels, for concrete evaluation. -/
def defaultOptions : String → RouteOptions := fun _ => ⟨none, none⟩

/-! Concrete navigation states used as witnesses: six routes with the
camera at position 2, matching the spec's end-to-end example. -/

def routeIndexTab : Route := ⟨"k-index", "index"⟩

def routeHistoryTab : Route := ⟨"k-history", "history"⟩

def routeCameraTab : Route := ⟨"k-camera", "camera"⟩

def routeStatisticsTab : Route := ⟨"k-statistics", "statistics"⟩

def routeCalendarTab : Route := ⟨"k-calendar", "calendar"⟩

def routeProfileTab : Route := ⟨"k-profile", "profile"⟩

/-- Six routes, camera at position 2, active index 4. -/
def stateSix : NavState :=
  ⟨[routeIndexTab, routeHistoryTab, routeCameraTab, routeStatisticsTab,
    routeCalendarTab, routeProfileTab], 4⟩

/-- Three routes, active index 0. -/
def stateThree : NavState := ⟨[routeIndexTab, routeHistoryTab, routeProfileTab], 0⟩

/-- Five routes, active index 0. -/
def stateFive : NavState :=
  ⟨[routeIndexTab, routeHistoryTab, routeCameraTab, routeStatisticsTab,
    routeProfileTab], 0⟩

/-- Six routes, active index 5 (the last, non-camera tab). -/
def stateSixLast : NavState :=
  ⟨[routeIndexTab, routeHistoryTab, routeCameraTab, routeStatisticsTab,
    routeCalendarTab, routeProfileTab], 5⟩

/-! ### Reduction lemmas for the JavaScript arithmetic -/

@[simp] theorem JSNum.add_num_num (a b : ℚ) :
    JSNum.add (.num a) (.num b) = .num (a + b) := rfl

@[simp] theorem JSNum.sub_num_num (a b : ℚ) :
    JSNum.sub (.num a) (.num b) = .num (a - b) := by
  simp [JSNum.sub, JSNum.add, JSNum.neg, sub_eq_add_neg]

@[simp] theorem JSNum.mul_num_num (a b : ℚ) :
    JSNum.mul (.num a) (.num b) = .num (a * b) := rfl

theorem JSNum.div_num_num {b : ℚ} (a : ℚ) (h : b ≠ 0) :
    JSNum.div (.num a) (.num b) = .num (a / b) := by
  simp [JSNum.div, h]

@[simp] theorem JSNum.gtb_num_num (a b : ℚ) :
    JSNum.gtb (.num a) (.num b) = decide (b < a) := rfl

@[simp] theorem JSNum.maxJ_num_num (a b : ℚ) :
    JSNum.maxJ (.num a) (.num b) = .num (max a b) := rfl

@[simp] theorem JSNum.minJ_num_num (a b : ℚ) :
    JSNum.minJ (.num a) (.num b) = .num (min a b) := rfl

/-! ### Helper lemmas for the layout calculator -/

theorem min_visible_cast_ne_zero (st : NavState) (h1 : 1 ≤ st.routes.length) :
    ((min st.routes.length 5 : ℕ) : ℚ) ≠ 0 := by
  have : 0 < min st.routes.length 5 := lt_min h1 (by norm_num)
  exact_mod_cast this.ne'

theorem tabCalculations_needsScroll_def (w : ℚ) (st : NavState) :
    (tabCalculations w st).needsScroll
      = JSNum.gtb (tabCalculations w st).totalWidth (.num w) := rfl

/-- With at least one route, the tab width is the finite rational
`w / min(routeCount, 5)`. -/
theorem tabCalculations_tabWidth (w : ℚ) (st : NavState)
    (h1 : 1 ≤ st.routes.length) :
    (tabCalculations w st).tabWidth
      = .num (w / ((min st.routes.length 5 : ℕ) : ℚ)) :=
  JSNum.div_num_num w (min_visible_cast_ne_zero st h1)

/-- With at least one route, the total width is the finite rational
`routeCount * (w / min(routeCount, 5))`. -/
theorem tabCalculations_totalWidth (w : ℚ) (st : NavState)
    (h1 : 1 ≤ st.routes.length) :
    (tabCalculations w st).totalWidth
      = .num ((st.routes.length : ℚ) * (w / ((min st.routes.length 5 : ℕ) : ℚ))) := by
  calc (tabCalculations w st).totalWidth
      = JSNum.mul (.num (st.routes.length : ℚ)) (tabCalculations w st).tabWidth := rfl
    _ = JSNum.mul (.num (st.routes.length : ℚ))
          (.num (w / ((min st.routes.length 5 : ℕ) : ℚ))) := by
        rw [tabCalculations_tabWidth w st h1]
    _ = .num ((st.routes.length : ℚ) * (w / ((min st.routes.length 5 : ℕ) : ℚ))) := rfl

/-- With more than five routes, the tab width is `w / 5`. -/
theorem tabWidth_of_overflow (w : ℚ) (st : NavState) (h6 : 5 < st.routes.length) :
    (tabCalculations w st).tabWidth = .num (w / 5) := by
  have h1 : 1 ≤ st.routes.length := le_of_lt (Nat.lt_of_le_of_lt (by norm_num) h6)
  have h := tabCalculations_tabWidth w st h1
  rw [min_eq_right (le_of_lt h6)] at h
  rw [h]; norm_num

/-- With more than five routes, the total width is `routeCount * (w / 5)`. -/
theorem totalWidth_of_overflow (w : ℚ) (st : NavState) (h6 : 5 < st.routes.length) :
    (tabCalculations w st).totalWidth
      = .num ((st.routes.length : ℚ) * (w / 5)) := by
  have h1 : 1 ≤ st.routes.length := le_of_lt (Nat.lt_of_le_of_lt (by norm_num) h6)
  have h := tabCalculations_totalWidth w st h1
  rw [min_eq_right (le_of_lt h6)] at h
  rw [h]; norm_num

/-- With more than five routes and a positive viewport, overflow holds. -/
theorem needsScroll_of_overflow (w : ℚ) (hw : 0 < w) (st : NavState)
    (h6 : 5 < st.routes.length) :
    (tabCalculations w st).needsScroll = true := by
  have hlt : w < (st.routes.length : ℚ) * (w / 5) := by
    have h5q : (5 : ℚ) < (st.routes.length : ℚ) := by exact_mod_cast h6
    rw [mul_div_assoc', lt_div_iff₀ (by norm_num : (0 : ℚ) < 5)]
    nlinarith
  rw [tabCalculations_needsScroll_def, totalWidth_of_overflow w st h6,
    JSNum.gtb_num_num]
  exact decide_eq_true hlt

/-- With overflow, the clamped scroll offset is the finite rational
`max 0 (min (activeIndex * (w/5) - w/2 + (w/5)/2) (routeCount * (w/5) - w))`. -/
theorem scrollOffset_of_overflow (w : ℚ) (st : NavState)
    (h6 : 5 < st.routes.length) :
    scrollOffset w st
      = .num (max 0 (min ((st.index : ℚ) * (w / 5) - w / 2 + (w / 5) / 2)
          ((st.routes.length : ℚ) * (w / 5) - w))) := by
  have htw := tabWidth_of_overflow w st h6
  have httw := totalWidth_of_overflow w st h6
  calc scrollOffset w st
      = JSNum.maxJ (.num 0)
          (JSNum.minJ
            (JSNum.add
              (JSNum.sub (JSNum.mul (.num (st.index : ℚ)) (tabCalculations w st).tabWidth)
                (JSNum.div (.num w) (.num 2)))
              (JSNum.div (tabCalculations w st).tabWidth (.num 2)))
            (JSNum.sub (tabCalculations w st).totalWidth (.num w))) := rfl
    _ = _ := by
        rw [htw, httw, JSNum.div_num_num w (by norm_num : (2 : ℚ) ≠ 0),
          JSNum.div_num_num (w / 5) (by norm_num : (2 : ℚ) ≠ 0)]
        simp

/-- With overflow and an attached scroll ref, the scroll command is issued
with the (possibly mirrored) offset. -/
theorem scrollCommand_of_overflow (w : ℚ) (st : NavState) (isRTL : Bool)
    (hns : (tabCalculations w st).needsScroll = true) :
    scrollCommand w st isRTL true
      = some { x := if isRTL
                    then JSNum.sub (JSNum.sub (tabCalculations w st).totalWidth (.num w))
                      (scrollOffset w st)
                    else scrollOffset w st
               animated := true } := by
  simp only [scrollCommand, hns, Bool.and_self, if_true]

/-- With at least one route, the indicator spring target is the finite
rational `activeIndex * tabWidth + tabWidth / 2 - 20`. -/
theorem indicatorSpring_toValue (w : ℚ) (st : NavState)
    (h1 : 1 ≤ st.routes.length) :
    (indicatorSpring w st).toValue
      = .num ((st.index : ℚ) * (w / ((min st.routes.length 5 : ℕ) : ℚ))
          + (w / ((min st.routes.length 5 : ℕ) : ℚ)) / 2 - 20) := by
  have htw := tabCalculations_tabWidth w st h1
  calc (indicatorSpring w st).toValue
      = JSNum.sub
          (JSNum.add (JSNum.mul (.num (st.index : ℚ)) (tabCalculations w st).tabWidth)
            (JSNum.div (tabCalculations w st).tabWidth (.num 2)))
          (.num 20) := rfl
    _ = _ := by
        rw [htw, JSNum.div_num_num _ (by norm_num : (2 : ℚ) ≠ 0)]
        simp

/-! ### The claims -/

/-- Claim C1: the layout calculator computes tab width
`w / min(routeCount, 5)`, total width `tabWidth × routeCount`, and
overflow `(totalWidth > w)`; for `1 ≤ R ≤ 5` the tab width is `w / R`,
the total width is exactly `w` and overflow is false; for `R > 5` the
tab width is `w / 5` and overflow is true. -/
theorem claim_c1_tab_geometry (w : ℚ) (hw : 0 < w) (st : NavState) :
    ((tabCalculations w st).tabWidth
        = JSNum.div (.num w) (.num ((min st.routes.length 5 : ℕ) : ℚ))
      ∧ (tabCalculations w st).totalWidth
        = JSNum.mul (.num (st.routes.length : ℚ)) (tabCalculations w st).tabWidth
      ∧ (tabCalculations w st).needsScroll
        = JSNum.gtb (tabCalculations w st).totalWidth (.num w))
    ∧ (1 ≤ st.routes.length → st.routes.length ≤ 5 →
        (tabCalculations w st).tabWidth = .num (w / (st.routes.length : ℚ))
        ∧ (tabCalculations w st).totalWidth = .num w
        ∧ (tabCalculations w st).needsScroll = false)
    ∧ (5 < st.routes.length →
        (tabCalculations w st).tabWidth = .num (w / 5)
        ∧ (tabCalculations w st).needsScroll = true) := by
  refine ⟨⟨rfl, rfl, rfl⟩, ?_, ?_⟩
  · intro h1 h5
    have hmin : min st.routes.length 5 = st.routes.length := min_eq_left h5
    have hne : ((st.routes.length : ℕ) : ℚ) ≠ 0 := by
      exact_mod_cast (Nat.lt_of_lt_of_le Nat.zero_lt_one h1).ne'
    have htw := tabCalculations_tabWidth w st h1
    have httw := tabCalculations_totalWidth w st h1
    rw [hmin] at htw httw
    have htotal : (tabCalculations w st).totalWidth = .num w := by
      rw [httw, mul_div_cancel₀ _ hne]
    refine ⟨htw, htotal, ?_⟩
    rw [tabCalculations_needsScroll_def, htotal, JSNum.gtb_num_num]
    simp
  · intro h5
    exact ⟨tabWidth_of_overflow w st h5, needsScroll_of_overflow w hw st h5⟩

/-- Witness for C1 at concrete inputs: three routes at viewport 360 give
tab width 120 and no overflow; six routes give tab width 72 and overflow. -/
theorem claim_c1_tab_geometry_witness :
    ((tabCalculations 360 stateThree).tabWidth = .num 120
      ∧ (tabCalculations 360 stateThree).totalWidth = .num 360
      ∧ (tabCalculations 360 stateThree).needsScroll = false)
    ∧ ((tabCalculations 360 stateSix).tabWidth = .num 72
      ∧ (tabCalculations 360 stateSix).needsScroll = true) := by
  have h3 := (claim_c1_tab_geometry 360 (by norm_num) stateThree).2.1
    (by decide) (by decide)
  have h6 := (claim_c1_tab_geometry 360 (by norm_num) stateSix).2.2 (by decide)
  refine ⟨⟨?_, ?_, h3.2.2⟩, ⟨?_, h6.2⟩⟩
  · rw [h3.1]; norm_num [stateThree]
  · exact h3.2.1
  · rw [h6.1]; norm_num

/-- Claim C7: on every change of the active index the indicator scalar is
retargeted to `activeIndex * tabWidth + tabWidth / 2 - indicatorWidth / 2`
(indicator 40 units wide, hence minus 20) via a spring with tension 300 and
friction 25. -/
theorem claim_c7_indicator_retarget (w : ℚ) (st : NavState)
    (h1 : 1 ≤ st.routes.length) :
    (indicatorSpring w st).tension = 300
    ∧ (indicatorSpring w st).friction = 25
    ∧ INDICATOR_WIDTH = 40
    ∧ (indicatorSpring w st).toValue
        = .num ((st.index : ℚ) * (w / ((min st.routes.length 5 : ℕ) : ℚ))
            + (w / ((min st.routes.length 5 : ℕ) : ℚ)) / 2 - INDICATOR_WIDTH / 2) := by
  refine ⟨rfl, rfl, rfl, ?_⟩
  rw [indicatorSpring_toValue w st h1]
  norm_num [INDICATOR_WIDTH]

/-- Witness for C7: six routes at viewport 360, active index 4 — the
indicator springs to `4 * 72 + 36 - 20 = 304`. -/
theorem claim_c7_indicator_retarget_witness :
    (indicatorSpring 360 stateSix).tension = 300
    ∧ (indicatorSpring 360 stateSix).friction = 25
    ∧ (indicatorSpring 360 stateSix).toValue = .num 304 := by
  have h := claim_c7_indicator_retarget 360 stateSix (by decide)
  refine ⟨h.1, h.2.1, ?_⟩
  rw [h.2.2.2]
  norm_num [stateSix, INDICATOR_WIDTH]

/-- Counterexample for C2 as stated: with six routes at viewport 360 and
active index 5, the value passed as the spring target is 376, which is not
within `[0, 360]` — no clamping is applied at the indicator call site. -/
theorem claim_c2_counterexample :
    (indicatorSpring 360 stateSixLast).toValue = .num 376
    ∧ ¬((376 : ℚ) ≤ 360) := by
  constructor
  · have h := indicatorSpring_toValue 360 stateSixLast (by decide)
    rw [h]; norm_num [stateSixLast]
  · norm_num

/-- Claim C2 (amended): the indicator spring target is unclamped; it lies
within `[0, viewportWidth]` whenever the tabs do not overflow
(`routeCount ≤ 5`), the active index is in range, and the viewport is at
least `40 * routeCount` (so that `tabWidth / 2 ≥ 20`). -/
theorem claim_c2_indicator_in_viewport (w : ℚ) (st : NavState)
    (h1 : 1 ≤ st.routes.length) (h5 : st.routes.length ≤ 5)
    (hidx : st.index < st.routes.length)
    (hw : 40 * (st.routes.length : ℚ) ≤ w) :
    ∃ q : ℚ, (indicatorSpring w st).toValue = .num q ∧ 0 ≤ q ∧ q ≤ w := by
  have htv := indicatorSpring_toValue w st h1
  rw [min_eq_left h5] at htv
  set R : ℚ := (st.routes.length : ℚ) with hR
  have hRpos : 0 < R := by
    rw [hR]; exact_mod_cast Nat.lt_of_lt_of_le Nat.zero_lt_one h1
  set t : ℚ := w / R with ht
  have hRt : R * t = w := by
    rw [ht, mul_div_cancel₀ _ hRpos.ne']
  have ht40 : 40 ≤ t := by
    rw [ht, le_div_iff₀ hRpos]
    linarith [hw]
  have hiR : (st.index : ℚ) ≤ R - 1 := by
    rw [hR]
    have : (st.index : ℚ) + 1 ≤ (st.routes.length : ℚ) := by exact_mod_cast hidx
    linarith
  have hipos : (0 : ℚ) ≤ (st.index : ℚ) := Nat.cast_nonneg _
  refine ⟨(st.index : ℚ) * t + t / 2 - 20, htv, ?_, ?_⟩
  · nlinarith
  · have hit : (st.index : ℚ) * t ≤ (R - 1) * t :=
      mul_le_mul_of_nonneg_right hiR (by linarith)
    nlinarith

/-- Witness for C2 (amended): five routes at viewport 200, active index 0 —
the spring target is `0 * 40 + 20 - 20 = 0`, within `[0, 200]`. -/
theorem claim_c2_indicator_in_viewport_witness :
    ∃ q : ℚ, (indicatorSpring 200 stateFive).toValue = .num q
      ∧ 0 ≤ q ∧ q ≤ 200 :=
  claim_c2_indicator_in_viewport 200 stateFive (by decide) (by decide)
    (by decide) (by norm_num [stateFive])

/-- Claim C5: the scroll synchronizer runs only when overflow is true, and
the left-to-right offset it computes is
`clamp(activeIndex * tabWidth - w/2 + tabWidth/2, 0, totalWidth - w)`,
hence always lies within `[0, max 0 (totalWidth - w)]`. -/
theorem claim_c5_scroll_offset_clamped (w : ℚ) (hw : 0 < w) (st : NavState)
    (isRTL hasScrollRef : Bool) :
    ((tabCalculations w st).needsScroll = false →
      scrollCommand w st isRTL hasScrollRef = none)
    ∧ (5 < st.routes.length →
        ∃ off : ℚ,
          scrollCommand w st false true = some ⟨.num off, true⟩
          ∧ off = max 0 (min ((st.index : ℚ) * (w / 5) - w / 2 + (w / 5) / 2)
              ((st.routes.length : ℚ) * (w / 5) - w))
          ∧ 0 ≤ off
          ∧ off ≤ max 0 ((st.routes.length : ℚ) * (w / 5) - w)) := by
  constructor
  · intro h
    simp [scrollCommand, h]
  · intro h6
    have hns := needsScroll_of_overflow w hw st h6
    have hcmd := scrollCommand_of_overflow w st false hns
    rw [if_neg (by simp)] at hcmd
    rw [scrollOffset_of_overflow w st h6] at hcmd
    refine ⟨_, hcmd, rfl, le_max_left _ _, ?_⟩
    exact max_le_max (le_refl 0) (min_le_right _ _)

/-- Witness for C5: the spec's end-to-end example — six routes at viewport
360, active index 4 → offset `clamp(4·72 - 180 + 36, 0, 72) = 72`. -/
theorem claim_c5_scroll_offset_clamped_witness :
    scrollCommand 360 stateSix false true = some ⟨.num 72, true⟩
    ∧ (0 : ℚ) ≤ 72 ∧ (72 : ℚ) ≤ max 0 ((6 : ℚ) * (360 / 5) - 360) := by
  obtain ⟨off, hcmd, hoff, h0, hub⟩ :=
    (claim_c5_scroll_offset_clamped 360 (by norm_num) stateSix false true).2
      (by decide)
  have h72 : off = 72 := by
    rw [hoff]; norm_num [stateSix]
  rw [h72] at hcmd
  exact ⟨hcmd, by norm_num, by norm_num⟩

/-- Claim C6: in right-to-left mode, the issued scroll offset equals
`totalWidth - w - offsetLTR`, where `offsetLTR` is the clamped offset the
same state produces in left-to-right mode. -/
theorem claim_c6_rtl_mirror (w : ℚ) (hw : 0 < w) (st : NavState)
    (h6 : 5 < st.routes.length) :
    ∃ off : ℚ,
      scrollCommand w st false true = some ⟨.num off, true⟩
      ∧ scrollCommand w st true true
          = some ⟨.num ((st.routes.length : ℚ) * (w / 5) - w - off), true⟩ := by
  have hns := needsScroll_of_overflow w hw st h6
  have hltr := scrollCommand_of_overflow w st false hns
  have hrtl := scrollCommand_of_overflow w st true hns
  rw [if_neg (by simp)] at hltr
  rw [if_pos rfl] at hrtl
  rw [scrollOffset_of_overflow w st h6] at hltr hrtl
  rw [totalWidth_of_overflow w st h6] at hrtl
  refine ⟨_, hltr, ?_⟩
  rw [hrtl]
  simp

/-- Witness for C6: six routes at viewport 360, active index 4 — the LTR
offset is 72 and the RTL command issues `432 - 360 - 72 = 0`. -/
theorem claim_c6_rtl_mirror_witness :
    scrollCommand 360 stateSix true true = some ⟨.num 0, true⟩ := by
  obtain ⟨off, hltr, hrtl⟩ :=
    claim_c6_rtl_mirror 360 (by norm_num) stateSix (by decide)
  have hcmd := scrollCommand_of_overflow 360 stateSix false
    (needsScroll_of_overflow 360 (by norm_num) stateSix (by decide))
  rw [if_neg (by simp)] at hcmd
  rw [scrollOffset_of_overflow 360 stateSix (by decide)] at hcmd
  have h72 : off = 72 := by
    have heq := hltr.symm.trans hcmd
    simp only [Option.some.injEq, ScrollCmd.mk.injEq, JSNum.num.injEq] at heq
    rw [heq.1]
    norm_num [stateSix]
  rw [h72] at hrtl
  rw [hrtl]
  norm_num [stateSix]

/-- Counterexample for C3 as stated: with the route list empty at viewport
360, the tab width is not 0 (it is `+Infinity`, from the division by
`min(0, 5) = 0`) and the total width is not 0 (it is `NaN`, from
`0 * Infinity`). -/
theorem claim_c3_counterexample :
    (tabCalculations 360 ⟨[], 0⟩).tabWidth ≠ JSNum.num 0
    ∧ (tabCalculations 360 ⟨[], 0⟩).totalWidth ≠ JSNum.num 0 := by
  decide

/-- Claim C3 (amended): with an empty route list the layout calculator
divides by zero, so the tab width is `+Infinity` and the total width is
`NaN` (not zero); the overflow flag is still false (`NaN > w` is false),
the component renders no tabs, and no error is raised (every embedded
operation is total). -/
theorem claim_c3_empty_routes (w : ℚ) (hw : 0 < w) (idx : ℕ)
    (descriptors : String → RouteOptions) :
    (tabCalculations w ⟨[], idx⟩).tabWidth = JSNum.posInf
    ∧ (tabCalculations w ⟨[], idx⟩).totalWidth = JSNum.nan
    ∧ (tabCalculations w ⟨[], idx⟩).needsScroll = false
    ∧ renderTabs w ⟨[], idx⟩ descriptors = [] := by
  have h1 : (tabCalculations w ⟨[], idx⟩).tabWidth = JSNum.posInf := by
    simp [tabCalculations, JSNum.div, hw]
  have h2 : (tabCalculations w ⟨[], idx⟩).totalWidth = JSNum.nan := by
    have hdef : (tabCalculations w ⟨[], idx⟩).totalWidth
        = JSNum.mul (.num ((0 : ℕ) : ℚ)) (tabCalculations w ⟨[], idx⟩).tabWidth := rfl
    rw [hdef, h1]
    simp [JSNum.mul]
  refine ⟨h1, h2, ?_, rfl⟩
  rw [tabCalculations_needsScroll_def, h2]
  rfl

/-- Witness for C3 (amended), at viewport 360 with empty descriptors. -/
theorem claim_c3_empty_routes_witness :
    (tabCalculations 360 ⟨[], 0⟩).tabWidth = JSNum.posInf
    ∧ (tabCalculations 360 ⟨[], 0⟩).totalWidth = JSNum.nan
    ∧ (tabCalculations 360 ⟨[], 0⟩).needsScroll = false
    ∧ renderTabs 360 ⟨[], 0⟩ defaultOptions = [] :=
  claim_c3_empty_routes 360 (by norm_num) 0 defaultOptions

/-- Claim C4: every press handler (ordinary tab and floating camera
button) first emits a cancelable `tabPress` keyed by the route key, and
issues exactly one navigation request to the route's name iff the tab is
not focused and the event was not canceled; a focused tab never
navigates. -/
theorem claim_c4_press_contract (route : Route) (isFocused prevented : Bool)
    (w : ℚ) (st : NavState) (cameraRoute : Route)
    (_hc : findCameraRoute st = some cameraRoute) :
    ((onPressTab isFocused route prevented).head?
        = some (NavEffect.emit "tabPress" route.key true)
      ∧ navigations (onPressTab isFocused route prevented)
        = (if isFocused = false ∧ prevented = false then [route.name] else [])
      ∧ (isFocused = true → navigations (onPressTab isFocused route prevented) = []))
    ∧ ((onPressFloatingCamera w st cameraRoute prevented).head?
        = some (NavEffect.emit "tabPress" cameraRoute.key true)
      ∧ navigations (onPressFloatingCamera w st cameraRoute prevented)
        = (if ¬((st.index : Int) = (tabCalculations w st).cameraIndex)
              ∧ prevented = false
           then [cameraRoute.name] else [])
      ∧ ((st.index : Int) = (tabCalculations w st).cameraIndex →
          navigations (onPressFloatingCamera w st cameraRoute prevented) = [])) := by
  refine ⟨⟨?_, ?_, ?_⟩, ⟨?_, ?_, ?_⟩⟩
  · cases isFocused <;> cases prevented <;> rfl
  · cases isFocused <;> cases prevented <;> simp [onPressTab, navigations]
  · intro h
    subst h
    cases prevented <;> simp [onPressTab, navigations]
  · by_cases hf : (st.index : Int) = (tabCalculations w st).cameraIndex <;>
      cases prevented <;> rfl
  · by_cases hf : (st.index : Int) = (tabCalculations w st).cameraIndex <;>
      cases prevented <;>
      simp [onPressFloatingCamera, hf, navigations]
  · intro hf
    cases prevented <;> simp [onPressFloatingCamera, hf, navigations]

/-- Witness for C4: pressing the non-focused home tab navigates to
"index"; pressing the non-focused floating camera button navigates to
"camera"; both while emitting one `tabPress` first. -/
theorem claim_c4_press_contract_witness :
    (onPressTab false routeIndexTab false).head?
      = some (NavEffect.emit "tabPress" "k-index" true)
    ∧ navigations (onPressTab false routeIndexTab false) = ["index"]
    ∧ navigations (onPressFloatingCamera 360 stateSix routeCameraTab false)
      = ["camera"] := by
  have h := claim_c4_press_contract routeIndexTab false false 360 stateSix
    routeCameraTab (by decide)
  refine ⟨h.1.1, ?_, ?_⟩
  · rw [h.1.2.1, if_pos ⟨rfl, rfl⟩]
    rfl
  · rw [h.2.2.1, if_pos ⟨by decide, rfl⟩]
    rfl

/-- Claim C8: icon resolution is total; an unmapped route name resolves
to the default `Home` icon, a mapped name resolves to its mapped icon. -/
theorem claim_c8_icon_resolution (name : String) :
    (iconMap name = none → resolveIcon name = Icon.Home)
    ∧ (∀ icon, iconMap name = some icon → resolveIcon name = icon) := by
  constructor
  · intro h
    simp [resolveIcon, h]
  · intro icon h
    simp [resolveIcon, h]

/-- Witness for C8: the unmapped name "settings" resolves to `Home`, the
mapped name "profile" resolves to `User`. -/
theorem claim_c8_icon_resolution_witness :
    resolveIcon "settings" = Icon.Home ∧ resolveIcon "profile" = Icon.User :=
  ⟨(claim_c8_icon_resolution "settings").1 rfl,
   (claim_c8_icon_resolution "profile").2 Icon.User rfl⟩

/-- Claim C9: the per-route animated-state collection has exactly one
entry per route present at mount; indexing it at position `i` yields no
entry iff `i` is beyond the mount-time route count; hence every render
index over a later route list is well-defined iff that list is no longer
than the mount-time one. -/
theorem claim_c9_icon_animations_mount (mountRoutes currentRoutes : List Route) :
    (iconAnimationsInit mountRoutes).length = mountRoutes.length
    ∧ (∀ i : ℕ, (iconAnimationsInit mountRoutes)[i]? = none ↔ mountRoutes.length ≤ i)
    ∧ ((∀ j : ℕ, j < currentRoutes.length →
          ((iconAnimationsInit mountRoutes)[j]?).isSome)
        ↔ currentRoutes.length ≤ mountRoutes.length) := by
  have hlen : (iconAnimationsInit mountRoutes).length = mountRoutes.length :=
    List.length_map _ _
  refine ⟨hlen, ?_, ?_⟩
  · intro i
    rw [List.getElem?_eq_none_iff, hlen]
  · constructor
    · intro h
      by_contra hlt
      push_neg at hlt
      have hnone : (iconAnimationsInit mountRoutes)[mountRoutes.length]? = none := by
        rw [List.getElem?_eq_none_iff, hlen]
      have := h mountRoutes.length hlt
      rw [hnone] at this
      simp at this
    · intro h j hj
      have hjm : j < (iconAnimationsInit mountRoutes).length := by
        rw [hlen]; exact lt_of_lt_of_le hj h
      rw [List.getElem?_eq_getElem hjm]
      rfl

/-- Witness for C9: mounted with three routes, the collection has three
entries; if the route list later grows to six, index 3 yields no entry. -/
theorem claim_c9_icon_animations_mount_witness :
    (iconAnimationsInit stateThree.routes).length = 3
    ∧ (iconAnimationsInit stateThree.routes)[3]? = none
    ∧ ¬(∀ j : ℕ, j < stateSix.routes.length →
        ((iconAnimationsInit stateThree.routes)[j]?).isSome) := by
  have h := claim_c9_icon_animations_mount stateThree.routes stateSix.routes
  refine ⟨h.1, (h.2.1 3).mpr (by decide), ?_⟩
  intro hall
  have := h.2.2.mp hall
  revert this
  decide

/-- Claim C10: the floating camera button registers no long-press
handler, so a long press on it produces no effect (no `tabLongPress` is
emitted), while an ordinary tab's long press emits exactly the
non-cancelable `tabLongPress` keyed by its route key. -/
theorem claim_c10_no_floating_longpress (w : ℚ) (st : NavState)
    (cameraRoute route : Route) (isFocused : Bool) :
    (floatingCameraButton w st cameraRoute).longPress = none
    ∧ firedLongPress (floatingCameraButton w st cameraRoute) = []
    ∧ (ordinaryTabButton isFocused route).longPress
        = some [NavEffect.emit "tabLongPress" route.key false]
    ∧ firedLongPress (ordinaryTabButton isFocused route)
        = [NavEffect.emit "tabLongPress" route.key false] :=
  ⟨rfl, rfl, rfl, rfl⟩

end TabBar
